import Mathlib

/-!
Verification development for the aqimon repository: an air-quality
monitoring pipeline that samples a PurpleAir particulate sensor,
converts PM2.5 concentration to an AQI via the EPA piecewise-linear
breakpoint table, detects threshold crossings against a persisted
baseline reading, and dispatches notifications.

JavaScript and Go floating-point numbers are embedded as an exact type
JSNum (a rational value or the NaN sentinel). Every numeric constant in
the source is an exact decimal, so rational arithmetic reproduces the
branch selection and comparison behaviour of the source, and
comparisons with NaN are false, matching the IEEE semantics used by
both languages on the values involved here.
-/

namespace Aqimon

/-- A JavaScript or Go number: either an exact rational value or NaN.
Comparisons involving NaN are false; additions propagate NaN. -/
inductive JSNum where
  | nan : JSNum
  | val (q : ℚ) : JSNum
deriving DecidableEq, Repr

namespace JSNum

/-- Strictly-greater comparison with IEEE NaN semantics (NaN compares false). -/
def gtb : JSNum → JSNum → Bool
  | val a, val b => decide (a > b)
  | _, _ => false

/-- Less-or-equal comparison with IEEE NaN semantics (NaN compares false). -/
def leb : JSNum → JSNum → Bool
  | val a, val b => decide (a ≤ b)
  | _, _ => false

/-- Addition with NaN propagation. -/
def add : JSNum → JSNum → JSNum
  | val a, val b => val (a + b)
  | _, _ => nan

end JSNum

/-- JavaScript Math.round and, for the non-negative arguments produced by
the AQI table, Go math.Round: round half toward positive infinity, which
on non-negative inputs agrees with rounding half away from zero. -/
def jsRound (q : ℚ) : ℚ := (⌊q + 1/2⌋ : ℤ)

/-- calcAQI from src/src/purpleAir.ts lines 141-152 (identical in
part_007 and in the Go variants of part_008): linear interpolation of
the concentration Cp from the breakpoint bracket BPl..BPh onto the index
bracket Il..Ih, rounded to the nearest integer. -/
def calcAQI (Cp Ih Il BPh BPl : ℚ) : ℚ :=
  jsRound ((Ih - Il) / (BPh - BPl) * (Cp - BPl) + Il)

/-- aqiFromPM from src/src/purpleAir.ts lines 104-139 (identical in
part_007 and in the Go variants of part_008): NaN propagates, negative
inputs pass through unchanged, inputs above 1000 map to NaN, and
otherwise the bracket is selected from the highest boundary downward
and linearly interpolated via calcAQI. -/
def aqiFromPM (pm : JSNum) : JSNum :=
  match pm with
  | .nan => .nan
  | .val q =>
    if q < 0 then .val q
    else if q > 1000 then .nan
    else if q > 350.5 then .val (calcAQI q 500 401 500 350.5)
    else if q > 250.5 then .val (calcAQI q 400 301 350.4 250.5)
    else if q > 150.5 then .val (calcAQI q 300 201 250.4 150.5)
    else if q > 55.5 then .val (calcAQI q 200 151 150.4 55.5)
    else if q > 35.5 then .val (calcAQI q 150 101 55.4 35.5)
    else if q > 12.1 then .val (calcAQI q 100 51 35.4 12.1)
    else if q ≥ 0 then .val (calcAQI q 50 0 12 0)
    else .nan

/-- Analysis helper: the pre-rounding linear value selected by aqiFromPM
for inputs handled by the bracket chain. Each branch restates the
corresponding calcAQI call of aqiFromPM with the rounding removed. -/
def aqiCoreExpr (q : ℚ) : ℚ :=
  if q > 350.5 then (500 - 401) / (500 - 350.5) * (q - 350.5) + 401
  else if q > 250.5 then (400 - 301) / (350.4 - 250.5) * (q - 250.5) + 301
  else if q > 150.5 then (300 - 201) / (250.4 - 150.5) * (q - 150.5) + 201
  else if q > 55.5 then (200 - 151) / (150.4 - 55.5) * (q - 55.5) + 151
  else if q > 35.5 then (150 - 101) / (55.4 - 35.5) * (q - 35.5) + 101
  else if q > 12.1 then (100 - 51) / (35.4 - 12.1) * (q - 12.1) + 51
  else (50 - 0) / (12 - 0) * (q - 0) + 0

/-- The fixed AQI alert threshold AQ_THRESHOLD = 65, from part_004 line
260 (also part_005 and part_006). -/
def AQ_THRESHOLD : ℚ := 65

/-- The two notification events of checkAirQuality. -/
inductive AQEvent where
  | air_quality_good : AQEvent
  | air_quality_bad : AQEvent
deriving DecidableEq, Repr

/-- The threshold-crossing comparison of checkAirQuality, part_004 lines
280-294 (identical in part_005, part_006 and the Go variants): compare
the previous and current ten-minute-average AQI against AQ_THRESHOLD
with JavaScript number comparison semantics. -/
def checkEvent (prev curr : JSNum) : Option AQEvent :=
  if JSNum.gtb prev (.val AQ_THRESHOLD) && JSNum.leb curr (.val AQ_THRESHOLD) then
    some AQEvent.air_quality_good
  else if JSNum.leb prev (.val AQ_THRESHOLD) && JSNum.gtb curr (.val AQ_THRESHOLD) then
    some AQEvent.air_quality_bad
  else none

/-- SensorResults as used by part_004 checkAirQuality: data timestamp,
optional place name, realtime and ten-minute-average AQI, staleness flag. -/
structure Reading where
  ts : ℤ
  placeName : Option String
  realtime : JSNum
  tenMinuteAvg : JSNum
  stale : Bool
deriving DecidableEq, Repr

/-- The externally visible effects of one checkAirQuality invocation,
in program order: the baseline write (storeReadings) and the optional
notification dispatch (notify). -/
inductive Effect where
  | storeWrite (r : Reading) : Effect
  | notifySend (e : AQEvent) (r : Reading) : Effect
deriving DecidableEq, Repr

/-- checkAirQuality from part_004 lines 262-302, as the ordered effect
list it performs after the current reading (results) and the stored
baseline lookup (lastReadings, already restricted to kind interval and
max age one hour) are in hand: first storeReadings writes the current
reading, then, if a previous reading exists and checkEvent fires, the
notification is dispatched. -/
def checkAirQualityEffects (lastReadings : Option Reading) (results : Reading) :
    List Effect :=
  Effect.storeWrite results ::
    (match lastReadings with
     | none => []
     | some prev =>
       match checkEvent prev.tenMinuteAvg results.tenMinuteAvg with
       | none => []
       | some e => [Effect.notifySend e results])

/-- Executor over effect lists: store writes update the baseline; a
notification either succeeds or fails (throws), and a failure aborts the
remainder, as an exception would, leaving earlier writes committed. The
Bool in the result records whether the run completed without a
notification failure. -/
def runEffects (notifySucceeds : Bool) (db : Option Reading) :
    List Effect → Option Reading × Bool
  | [] => (db, true)
  | Effect.storeWrite r :: rest => runEffects notifySucceeds (some r) rest
  | Effect.notifySend _ _ :: rest =>
      if notifySucceeds then runEffects notifySucceeds db rest
      else (db, false)

/-- avg from the Go reader in part_008 (and src/src/purpleAir.ts lines
154-159): arithmetic mean, with the empty list yielding NaN (in Go the
division zero by zero produces NaN) and NaN elements propagating. -/
def avg (nums : List JSNum) : JSNum :=
  if nums.length = 0 then .nan
  else
    match nums.foldl JSNum.add (.val 0) with
    | .nan => .nan
    | .val s => .val (s / nums.length)

/-- One physical sub-sensor entry of a PurpleAir response, as read by the
Go reader in part_008: the last-seen epoch timestamp of the Results
entry and the realtime (v) and ten-minute-average (v1) PM2.5 values of
its stats blob. -/
structure SubSensor where
  lastSeen : ℤ
  v : JSNum
  v1 : JSNum
deriving DecidableEq, Repr

/-- Staleness of one sub-sensor, from the Go reader in part_008: last
seen strictly before ten minutes (600 seconds) ago. -/
def staleSub (now : ℤ) (s : SubSensor) : Bool :=
  decide (s.lastSeen < now - 600)

/-- Failure modes of the sensor read: the data-quality failures of one
candidate (zero sub-sensors, stale sub-sensor) and the terminal
acquisition error raised when every candidate is exhausted. -/
inductive ReadError where
  | zeroResults : ReadError
  | staleResults : ReadError
  | acquisition : ReadError
deriving DecidableEq, Repr

/-- Processing of one candidate sensor response, from the Go reader
getPurpleAirSensorData in part_008 lines 527-561: zero sub-sensors or
any stale sub-sensor makes the candidate unusable; otherwise the
realtime and ten-minute-average PM2.5 values are averaged across the
sub-sensors and each mean is converted through aqiFromPM. -/
def processCandidate (now : ℤ) (results : List SubSensor) :
    Except ReadError (JSNum × JSNum) :=
  if results.length = 0 then .error .zeroResults
  else if results.any (staleSub now) then .error .staleResults
  else .ok (aqiFromPM (avg (results.map SubSensor.v)),
            aqiFromPM (avg (results.map SubSensor.v1)))

/-- A candidate is usable when it has at least one sub-sensor and none
of them is stale. -/
def usableCandidate (now : ℤ) (c : List SubSensor) : Bool :=
  decide (c.length ≠ 0) && !(c.any (staleSub now))

/-- Modelled from the spec: the Sensor Reader contract read over an
ordered candidate list (spec section 4.2). The TypeScript purpleAir
variant that accepts the full candidate list is not among the source
files (only its callers in part_005 and part_006, which pass the comma
split SENSOR_IDS, are); the Go reader in part_008 implements the same
policy for the two-element primary-plus-backup list by recursion. Each
candidate is processed with processCandidate, a data-quality failure
advances to the next candidate, and exhaustion is the acquisition
error. HTTP transport failures, which do not fail over, are outside the
model. -/
def readCandidates (now : ℤ) : List (List SubSensor) → Except ReadError (JSNum × JSNum)
  | [] => .error .acquisition
  | c :: rest =>
    match processCandidate now c with
    | .ok r => .ok r
    | .error _ => readCandidates now rest

/-- duration from part_004 lines 72-84: sums the optional hour, minute
and second components, with each absent or zero (falsy) component
contributing nothing. -/
def duration (hours minutes seconds : Option ℤ) : ℤ :=
  (match hours with | none => 0 | some h => if h = 0 then 0 else h * 3600) +
  (match minutes with | none => 0 | some m => if m = 0 then 0 else m * 60) +
  (match seconds with | none => 0 | some s => if s = 0 then 0 else s)

/-- The send decision of sendDailyReport, part_004 lines 86-108: no send
when the local wall-clock hour is below 8, otherwise send exactly when
the last daily reading timestamp (defaulting to 0 when absent) plus 23
hours is strictly below the current unix time. The part_005 variant
lines 64-87 makes the same comparison with the stored
last_successful_daily_report timestamp. -/
def sendDailyReport (nowHour : ℤ) (nowUnix : ℤ) (lastReportTs : Option ℤ) : Bool :=
  if nowHour < 8 then false
  else decide (lastReportTs.getD 0 + duration (some 23) none none < nowUnix)

/-- One row of the reading table as returned by the D1 query in
previousReadings, part_004: the selected columns plus the id used for
ordering. -/
structure DBRow where
  id : ℕ
  ts : ℤ
  kind : String
  stale : ℤ
  place_name : Option String
  realtime : ℚ
  ten_minute_avg : ℚ
deriving DecidableEq, Repr

/-- The parsed record returned by previousReadings, part_004 lines
227-234: SensorResults extended with the kind tag. -/
structure StoredReading where
  ts : ℤ
  placeName : Option String
  realtime : ℚ
  tenMinuteAvg : ℚ
  kind : String
  stale : Bool
deriving DecidableEq, Repr

/-- PreviousReadingsConditions from part_004 lines 175-178. -/
structure PrevCond where
  kind : Option String
  maxAge : Option ℤ
deriving DecidableEq, Repr

/-- The WHERE clause built by previousReadings, part_004 lines 184-195:
a kind equality condition when the kind is present, and a minimum
timestamp condition now minus maxAge when maxAge is present and nonzero
(a zero maxAge is falsy in JavaScript and adds no condition). -/
def rowMatches (now : ℤ) (cond : PrevCond) (r : DBRow) : Bool :=
  (match cond.kind with
   | none => true
   | some k => decide (r.kind = k)) &&
  (match cond.maxAge with
   | none => true
   | some a => if a = 0 then true else decide (now - a ≤ r.ts))

/-- Insertion step for the descending-id ordering of the query result. -/
def insertDesc (r : DBRow) : List DBRow → List DBRow
  | [] => [r]
  | x :: xs => if x.id ≤ r.id then r :: x :: xs else x :: insertDesc r xs

/-- ORDER BY id DESC of the previousReadings query: insertion sort by
descending id. -/
def orderByIdDesc (l : List DBRow) : List DBRow :=
  l.foldr insertDesc []

/-- operationModeSchema from part_004 lines 7-11: the kind is one of the
three literals. -/
def isOperationMode (s : String) : Bool :=
  s = "daily" || s = "adhoc" || s = "interval"

/-- dbResultSchema.safeParse from part_004 lines 166-173 and 223-226:
the kind must be an operation mode and the stale column must be the
literal 1 or 0; the record is then mapped to a StoredReading as in
lines 227-234. -/
def parseRow (r : DBRow) : Option StoredReading :=
  if isOperationMode r.kind && (r.stale = 1 || r.stale = 0) then
    some { ts := r.ts, placeName := r.place_name, realtime := r.realtime,
           tenMinuteAvg := r.ten_minute_avg, kind := r.kind, stale := r.stale = 1 }
  else none

/-- The error cases thrown by previousReadings, part_004 lines 206-226:
a failed D1 result, the unexpected-number-of-results branch, and a
schema parse failure. -/
inductive PrevError where
  | d1Error : PrevError
  | unexpectedCount : PrevError
  | badStructure : PrevError
deriving DecidableEq, Repr

/-- previousReadings from part_004 lines 180-235: run the SELECT with
the built conditions, ORDER BY id DESC LIMIT 1, then switch on the
number of returned rows: zero yields null, one row is schema parsed,
and any other count throws. The dbSuccess flag models the D1
result.success field. -/
def previousReadings (dbSuccess : Bool) (db : List DBRow) (cond : PrevCond)
    (now : ℤ) : Except PrevError (Option StoredReading) :=
  if !dbSuccess then .error .d1Error
  else
    match (orderByIdDesc (db.filter (rowMatches now cond))).take 1 with
    | [] => .ok none
    | [r] =>
      match parseRow r with
      | none => .error .badStructure
      | some p => .ok (some p)
    | _ => .error .unexpectedCount

/-- Discriminator for the unexpected-number-of-results error. -/
def isCountError : Except PrevError (Option StoredReading) → Bool
  | .error .unexpectedCount => true
  | _ => false

/-- Rounding half toward positive infinity is monotone. -/
theorem jsRound_mono {a b : ℚ} (h : a ≤ b) : jsRound a ≤ jsRound b := by
  unfold jsRound
  exact_mod_cast Int.floor_le_floor (by linarith)

/-- On the modeled range, aqiFromPM is the rounding of the piecewise
linear core expression. -/
theorem aqiFromPM_eq_core (q : ℚ) (h0 : 0 ≤ q) (h1 : q ≤ 500.5) :
    aqiFromPM (.val q) = .val (jsRound (aqiCoreExpr q)) := by
  simp only [aqiFromPM, aqiCoreExpr, calcAQI]
  split_ifs <;> first | rfl | (exfalso; linarith)

set_option maxHeartbeats 1600000 in
/-- The piecewise linear core expression is monotone: within each
bracket the slope is positive, and at each bracket boundary the value
jumps upward. -/
theorem aqiCoreExpr_mono (p q : ℚ) (hpq : p ≤ q) :
    aqiCoreExpr p ≤ aqiCoreExpr q := by
  simp only [aqiCoreExpr]
  split_ifs <;> linarith

/-- A usable candidate is processed to the converted means of its
sub-sensor readings. -/
theorem processCandidate_ok (now : ℤ) (c : List SubSensor)
    (h : usableCandidate now c = true) :
    processCandidate now c =
      .ok (aqiFromPM (avg (c.map SubSensor.v)),
           aqiFromPM (avg (c.map SubSensor.v1))) := by
  simp only [usableCandidate, Bool.and_eq_true, decide_eq_true_eq,
    Bool.not_eq_true'] at h
  simp [processCandidate, h.1, h.2]

/-- readCandidates returns the processing of the first usable candidate
and the acquisition error when no candidate is usable. -/
theorem readCandidates_characterization (now : ℤ) (cs : List (List SubSensor)) :
    readCandidates now cs =
      (match cs.find? (usableCandidate now) with
       | some c => processCandidate now c
       | none => Except.error ReadError.acquisition) := by
  induction cs with
  | nil => rfl
  | cons c rest ih =>
    by_cases h : usableCandidate now c = true
    · rw [List.find?_cons_of_pos _ h]
      simp [readCandidates, processCandidate_ok now c h]
    · rw [List.find?_cons_of_neg _ h]
      have h' : usableCandidate now c = false := by
        rwa [Bool.not_eq_true] at h
      simp only [usableCandidate, Bool.and_eq_false_iff, decide_eq_false_iff_not,
        not_not, Bool.not_eq_false] at h'
      rcases h' with h' | h'
      · simp [readCandidates, processCandidate, h', ih]
      · have h2 : c.any (staleSub now) = true := by simpa using h'
        by_cases hc : c.length = 0 <;>
          simp [readCandidates, processCandidate, h2, hc, ih]

/-- Claim C1: with the threshold fixed at 65, checkEvent emits
air_quality_good exactly when the previous ten-minute average exceeds
65 and the current one does not, emits air_quality_bad exactly when the
previous does not exceed 65 and the current one does, and otherwise
emits nothing; when either reading is NaN, every comparison is false
and the result is always no event. -/
theorem claim_C1 :
    (∀ p c : ℚ,
      (checkEvent (.val p) (.val c) = some AQEvent.air_quality_good ↔
        65 < p ∧ c ≤ 65) ∧
      (checkEvent (.val p) (.val c) = some AQEvent.air_quality_bad ↔
        p ≤ 65 ∧ 65 < c) ∧
      (checkEvent (.val p) (.val c) = none ↔
        ((p ≤ 65 ∨ 65 < c) ∧ (65 < p ∨ c ≤ 65)))) ∧
    (∀ x : JSNum, checkEvent JSNum.nan x = none ∧ checkEvent x JSNum.nan = none) := by
  constructor
  · intro p c
    rcases lt_or_le 65 p with h1 | h1 <;> rcases le_or_lt c 65 with h2 | h2 <;>
      [ (have h3 : ¬p ≤ 65 := not_le.mpr h1; have h4 : ¬65 < c := not_lt.mpr h2);
        (have h3 : ¬p ≤ 65 := not_le.mpr h1; have h4 : ¬c ≤ 65 := not_le.mpr h2);
        (have h3 : ¬65 < p := not_lt.mpr h1; have h4 : ¬65 < c := not_lt.mpr h2);
        (have h3 : ¬65 < p := not_lt.mpr h1; have h4 : ¬c ≤ 65 := not_le.mpr h2)] <;>
      simp [checkEvent, JSNum.gtb, JSNum.leb, AQ_THRESHOLD, h1, h2, h3, h4]
  · intro x
    cases x <;> simp [checkEvent, JSNum.gtb, JSNum.leb]

/-- Witness for claim C1 at the concrete crossing 70 to 60. -/
theorem claim_C1_witness :
    checkEvent (.val 70) (.val 60) = some AQEvent.air_quality_good :=
  ((claim_C1.1 70 60).1).mpr (by norm_num)

/-- Claim C2: when no previous reading exists (cold start or expired
baseline), checkAirQuality performs exactly the baseline write and no
notification, for every current reading, and afterward the stored
baseline is the current reading. -/
theorem claim_C2 : ∀ (results : Reading) (notifySucceeds : Bool) (db : Option Reading),
    checkAirQualityEffects none results = [Effect.storeWrite results] ∧
    (runEffects notifySucceeds db (checkAirQualityEffects none results)).1
      = some results := by
  intro results ns db
  exact ⟨rfl, rfl⟩

/-- Claim C3: on every invocation that obtained a current reading, the
baseline write is the first effect, preceding any notification
dispatch, and after the tick the stored baseline equals the current
reading whether or not the notification succeeds. -/
theorem claim_C3 : ∀ (lastReadings : Option Reading) (results : Reading)
    (notifySucceeds : Bool) (db : Option Reading),
    (∃ rest, checkAirQualityEffects lastReadings results
        = Effect.storeWrite results :: rest) ∧
    (runEffects notifySucceeds db (checkAirQualityEffects lastReadings results)).1
      = some results := by
  intro last results ns db
  constructor
  · exact ⟨_, rfl⟩
  · cases last with
    | none => rfl
    | some prev =>
      simp only [checkAirQualityEffects]
      cases checkEvent prev.tenMinuteAvg results.tenMinuteAvg with
      | none => rfl
      | some e =>
        simp only [runEffects]
        cases ns <;> simp [runEffects]

/-- Claim C4: the reader over an ordered candidate list fails over only
on data-quality failures and returns the first usable candidate
processing; it fails with the acquisition error exactly when every
candidate is unusable; a list of an empty candidate followed by a
usable one yields the second candidate result without error; a
single-candidate list whose candidate has a stale sub-sensor fails. -/
theorem claim_C4 :
    (∀ (now : ℤ) (cs : List (List SubSensor)),
      readCandidates now cs =
        (match cs.find? (usableCandidate now) with
         | some c => processCandidate now c
         | none => Except.error ReadError.acquisition)) ∧
    (∀ (now : ℤ) (b : List SubSensor), usableCandidate now b = true →
      readCandidates now [[], b] = processCandidate now b ∧
      readCandidates now [[], b] =
        Except.ok (aqiFromPM (avg (b.map SubSensor.v)),
                   aqiFromPM (avg (b.map SubSensor.v1)))) ∧
    (∀ (now : ℤ) (a : List SubSensor), a.any (staleSub now) = true →
      readCandidates now [a] = Except.error ReadError.acquisition) := by
  refine ⟨readCandidates_characterization, ?_, ?_⟩
  · intro now b hb
    have hok := processCandidate_ok now b hb
    have hempty : processCandidate now ([] : List SubSensor)
        = Except.error ReadError.zeroResults := rfl
    constructor
    · simp [readCandidates, hempty, hok]
    · simp [readCandidates, hempty, hok]
  · intro now a ha
    have hne : a.length ≠ 0 := by
      intro h0
      rw [List.length_eq_zero] at h0
      simp [h0] at ha
    by_cases hc : a.length = 0
    · exact absurd hc hne
    · simp [readCandidates, processCandidate, hc, ha]

/-- Witness for claim C4: a fresh single-sub-sensor candidate is usable
and recovers from an empty first candidate, and a stale single-candidate
list fails. -/
theorem claim_C4_witness :
    usableCandidate 1000 [⟨1000, JSNum.val 10, JSNum.val 20⟩] = true ∧
    readCandidates 1000 [[], [⟨1000, JSNum.val 10, JSNum.val 20⟩]] =
      processCandidate 1000 [⟨1000, JSNum.val 10, JSNum.val 20⟩] ∧
    List.any [(⟨0, JSNum.val 1, JSNum.val 1⟩ : SubSensor)] (staleSub 1000) = true ∧
    readCandidates 1000 [[⟨0, JSNum.val 1, JSNum.val 1⟩]] =
      Except.error ReadError.acquisition := by
  have h1 : usableCandidate 1000 [⟨1000, JSNum.val 10, JSNum.val 20⟩] = true := by
    simp [usableCandidate, staleSub]
  have h2 : List.any [(⟨0, JSNum.val 1, JSNum.val 1⟩ : SubSensor)] (staleSub 1000)
      = true := by
    simp [staleSub]
  exact ⟨h1, (claim_C4.2.1 1000 _ h1).1, h2, claim_C4.2.2 1000 _ h2⟩

/-- Claim C5, amended: at the band boundaries the code yields
aqiFromPM(12.0) = 50, aqiFromPM(12.1) = 50 (the bracket test pm > 12.1
places 12.1 in the lowest bracket, so the claimed value 51 is not
attained), aqiFromPM(35.4) = 100 and aqiFromPM(500.0) = 500. -/
theorem claim_C5 :
    aqiFromPM (.val 12) = .val 50 ∧
    aqiFromPM (.val 12.1) = .val 50 ∧
    aqiFromPM (.val 35.4) = .val 100 ∧
    aqiFromPM (.val 500) = .val 500 := by
  refine ⟨?_, ?_, ?_, ?_⟩ <;> norm_num [aqiFromPM, calcAQI, jsRound]

/-- Counterexample to claim C5 as stated: aqiFromPM(12.1) evaluates to
50, not the claimed 51. -/
theorem claim_C5_counterexample :
    aqiFromPM (.val 12.1) = .val 50 ∧
    decide (aqiFromPM (.val 12.1) = .val 51) = false := by
  have h50 : aqiFromPM (.val 12.1) = .val 50 := by
    norm_num [aqiFromPM, calcAQI, jsRound]
  refine ⟨h50, ?_⟩
  rw [h50]
  apply decide_eq_false
  intro h
  have : (50 : ℚ) = 51 := by injection h
  norm_num at this

/-- Claim C6: aqiFromPM is monotonically non-decreasing on the interval
from 0 to 500.5, including across every bracket boundary. -/
theorem claim_C6 (p q : ℚ) (h0 : 0 ≤ p) (hpq : p ≤ q) (h1 : q ≤ 500.5) :
    JSNum.leb (aqiFromPM (.val p)) (aqiFromPM (.val q)) = true := by
  have hq0 : 0 ≤ q := le_trans h0 hpq
  have hp1 : p ≤ 500.5 := le_trans hpq h1
  rw [aqiFromPM_eq_core p h0 hp1, aqiFromPM_eq_core q hq0 h1]
  simp only [JSNum.leb, decide_eq_true_eq]
  exact jsRound_mono (aqiCoreExpr_mono p q hpq)

/-- Witness for claim C6 at the concrete pair 0 and 1. -/
theorem claim_C6_witness :
    (0:ℚ) ≤ 0 ∧ (0:ℚ) ≤ 1 ∧ (1:ℚ) ≤ 500.5 ∧
    JSNum.leb (aqiFromPM (.val 0)) (aqiFromPM (.val 1)) = true :=
  ⟨le_refl 0, by norm_num, by norm_num,
    claim_C6 0 1 (le_refl 0) (by norm_num) (by norm_num)⟩

/-- Claim C7: aqiFromPM propagates sentinels: NaN maps to NaN, every
negative input is returned unchanged (in particular -5), and every
input above 1000 maps to NaN (in particular 1000.1). -/
theorem claim_C7 :
    aqiFromPM JSNum.nan = JSNum.nan ∧
    (∀ q : ℚ, q < 0 → aqiFromPM (.val q) = .val q) ∧
    (∀ q : ℚ, 1000 < q → aqiFromPM (.val q) = JSNum.nan) ∧
    aqiFromPM (.val (-5)) = .val (-5) ∧
    aqiFromPM (.val 1000.1) = JSNum.nan := by
  refine ⟨rfl, ?_, ?_, ?_, ?_⟩
  · intro q h
    simp [aqiFromPM, h]
  · intro q h
    have h0 : ¬q < 0 := by linarith
    simp [aqiFromPM, h0, h]
  · norm_num [aqiFromPM]
  · norm_num [aqiFromPM]

/-- Witness for claim C7 at the concrete inputs -5 and 1000.1. -/
theorem claim_C7_witness :
    ((-5:ℚ) < 0) ∧ aqiFromPM (.val (-5)) = .val (-5) ∧
    ((1000:ℚ) < 1000.1) ∧ aqiFromPM (.val 1000.1) = JSNum.nan :=
  ⟨by norm_num, claim_C7.2.1 (-5) (by norm_num),
   by norm_num, claim_C7.2.2.1 1000.1 (by norm_num)⟩

/-- Claim C8, amended: the daily report decision sends nothing while the
local hour is below the cutoff of 8, and past the cutoff it sends
exactly when now minus the last report timestamp is strictly greater
than 23 hours (82800 seconds); at exactly 82800 seconds nothing is
sent, so the claimed non-strict threshold does not hold. -/
theorem claim_C8 : ∀ (nowHour nowUnix : ℤ) (lastReportTs : Option ℤ),
    sendDailyReport nowHour nowUnix lastReportTs = true ↔
      (8 ≤ nowHour ∧ 82800 < nowUnix - lastReportTs.getD 0) := by
  intro h now last
  by_cases hh : h < 8 <;>
    · simp [sendDailyReport, duration, hh]
      all_goals omega

/-- Counterexample to claim C8 as stated: with the hour past the cutoff
and now minus the last timestamp exactly 82800 seconds, the claimed
condition of at least 23 hours holds but no report is sent. -/
theorem claim_C8_counterexample :
    sendDailyReport 9 82800 (some 0) = false ∧
    (8:ℤ) ≤ 9 ∧ (82800:ℤ) - 0 ≥ 82800 := by
  refine ⟨?_, by norm_num, by norm_num⟩
  simp [sendDailyReport, duration]

/-- Claim C9: a candidate whose sub-sensors are all fresh yields the
AQI conversion of the arithmetic means of the sub-sensor realtime and
ten-minute-average PM2.5 values; in particular two fresh sub-sensors
with realtime PM2.5 of 10 and 20 yield realtime AQI aqiFromPM(15). -/
theorem claim_C9 :
    (∀ (now : ℤ) (results : List SubSensor),
      0 < results.length → results.any (staleSub now) = false →
      processCandidate now results =
        Except.ok (aqiFromPM (avg (results.map SubSensor.v)),
                   aqiFromPM (avg (results.map SubSensor.v1)))) ∧
    avg [JSNum.val 10, JSNum.val 20] = JSNum.val 15 ∧
    processCandidate 1000
        [⟨1000, JSNum.val 10, JSNum.val 4⟩, ⟨1000, JSNum.val 20, JSNum.val 6⟩] =
      Except.ok (aqiFromPM (.val 15), aqiFromPM (.val 5)) := by
  have havg1 : avg [JSNum.val 10, JSNum.val 20] = JSNum.val 15 := by
    norm_num [avg, JSNum.add]
  have havg2 : avg [JSNum.val 4, JSNum.val 6] = JSNum.val 5 := by
    norm_num [avg, JSNum.add]
  refine ⟨?_, havg1, ?_⟩
  · intro now results hlen hstale
    have hne : ¬results.length = 0 := by omega
    simp [processCandidate, hne, hstale]
  · have hfresh : List.any
        [(⟨1000, JSNum.val 10, JSNum.val 4⟩ : SubSensor),
         ⟨1000, JSNum.val 20, JSNum.val 6⟩] (staleSub 1000) = false := by
      simp [staleSub]
    simp only [processCandidate, hfresh]
    norm_num [List.map, havg1, havg2]

/-- Witness for claim C9 at the concrete two-sub-sensor candidate. -/
theorem claim_C9_witness :
    0 < ([(⟨1000, JSNum.val 10, JSNum.val 4⟩ : SubSensor),
          ⟨1000, JSNum.val 20, JSNum.val 6⟩] : List SubSensor).length ∧
    List.any [(⟨1000, JSNum.val 10, JSNum.val 4⟩ : SubSensor),
          ⟨1000, JSNum.val 20, JSNum.val 6⟩] (staleSub 1000) = false ∧
    processCandidate 1000
        [⟨1000, JSNum.val 10, JSNum.val 4⟩, ⟨1000, JSNum.val 20, JSNum.val 6⟩] =
      Except.ok (aqiFromPM (avg [JSNum.val 10, JSNum.val 20]),
                 aqiFromPM (avg [JSNum.val 4, JSNum.val 6])) := by
  have hfresh : List.any
      [(⟨1000, JSNum.val 10, JSNum.val 4⟩ : SubSensor),
       ⟨1000, JSNum.val 20, JSNum.val 6⟩] (staleSub 1000) = false := by
    simp [staleSub]
  exact ⟨by norm_num, hfresh, claim_C9.1 1000 _ (by norm_num) hfresh⟩

/-- Claim C10: because the previousReadings query carries LIMIT 1, the
result set has at most one row, so the unexpected-number-of-results
error branch is unreachable: for every store state and condition the
function returns null, one parsed record, or a database or parse
error, never the count error. -/
theorem claim_C10 : ∀ (dbSuccess : Bool) (db : List DBRow) (cond : PrevCond) (now : ℤ),
    isCountError (previousReadings dbSuccess db cond now) = false := by
  intro dbSuccess db cond now
  cases dbSuccess with
  | false => rfl
  | true =>
    simp only [previousReadings, Bool.not_true, Bool.false_eq_true, if_false]
    cases h : orderByIdDesc (db.filter (rowMatches now cond)) with
    | nil => simp [h, isCountError]
    | cons a tl =>
      simp only [h, List.take_succ_cons, List.take_zero]
      cases parseRow a <;> simp [isCountError]

end Aqimon
